import Mathlib

/-!
Verification development for the muthaker-bot repository.

The definitions below are a shallow embedding of the Python sources:
* `src/fazkerbot.py` — the main bot: prayer-time gateway with fallback
  (`validate_api_response`, `try_city_api`, `try_coordinates_api`,
  `fetch_prayer_times_with_fallback`), the pure page-rotation function
  (`get_next_quran_pages_for_date`), and the daily task planner
  (`schedule_tasks`).
* `src/fazkerbot_n.py` — the variant implementing the reminder
  replace-lifecycle (`send_athkar` with the `message_ids` record).

Calendar dates are modelled as integer day numbers (days since the Unix
epoch); `daysFromCivil` converts a Gregorian `(year, month, day)` to that
day number, so that Python's `date` subtraction `(a - b).days` becomes
integer subtraction.  Wall-clock instants are modelled as integer minutes
since the same epoch (`mkDT`), so `datetime.date()` becomes integer
division by 1440 (`dtDate`).
-/

namespace Muthaker

/-- Day number of a Gregorian calendar date, counted from 1970-01-01 = 0
(standard civil-from-days conversion).  Models Python `datetime.date`:
subtracting two dates in Python yields the difference of their day
numbers. -/
def daysFromCivil (y m d : Int) : Int :=
  let yy := if m ≤ 2 then y - 1 else y
  let era := (if 0 ≤ yy then yy else yy - 399) / 400
  let yoe := yy - era * 400
  let mp := (m + 9) % 12
  let doy := (153 * mp + 2) / 5 + d - 1
  let doe := yoe * 365 + yoe / 4 - yoe / 100 + doy
  era * 146097 + doe - 719468

/-- The `while page <= 0: page += total_pages` loop of the `wrap` helper in
`get_next_quran_pages_for_date` (src/fazkerbot.py lines 310-312), with
`total_pages = 604` as in the source. -/
def wrapLoop (page : Int) : Int :=
  if h : page ≤ 0 then wrapLoop (page + 604) else page
termination_by (1 - page).toNat
decreasing_by omega

/-- The `wrap` helper of `get_next_quran_pages_for_date`
(src/fazkerbot.py lines 309-315): pages `≤ 0` wrap up from the end by
repeatedly adding `total_pages`; pages `> total_pages` wrap to
`((page - 1) % total_pages) + 1`; in-range pages are unchanged.
`total_pages = 604` as in the source. -/
def wrap (page : Int) : Int :=
  if page ≤ 0 then wrapLoop page
  else if page > 604 then (page - 1) % 604 + 1
  else page

/-- Embeds `get_next_quran_pages_for_date` (src/fazkerbot.py lines 294-321):
anchor date 2025-05-26 with anchor pages (2, 3); both pages advance by 2
per elapsed day and are wrapped into `[1, 604]`. -/
def get_next_quran_pages_for_date (target_date : Int) : Int × Int :=
  let anchor_date := daysFromCivil 2025 5 26
  let anchor_page1 : Int := 2
  let anchor_page2 : Int := 3
  let days_diff := target_date - anchor_date
  let page1 := anchor_page1 + days_diff * 2
  let page2 := anchor_page2 + days_diff * 2
  (wrap page1, wrap page2)

/-! ### Time-Source Gateway (src/fazkerbot.py lines 26-208)

A provider response is modelled by `ApiData`: whether the human-readable
date field is present, the embedded gregorian date (absent / present but
unparseable / parsed to a day number), and the `timings` map (a string to
string association list, as a Python dict).  A transport-level failure
(non-200 status, network or JSON error) is modelled by `none` at the
`Option ApiData` level. -/

/-- A prayer-times `timings` dict: prayer name to `"HH:MM"` string. -/
abbrev Timings := List (String × String)

/-- Embeds `FALLBACK_PRAYER_TIMES` (src/fazkerbot.py lines 26-32). -/
def FALLBACK_PRAYER_TIMES : Timings :=
  [("Fajr", "04:30"), ("Dhuhr", "12:00"), ("Asr", "16:30"),
   ("Maghrib", "19:00"), ("Isha", "20:30")]

/-- The fields of a provider JSON response that the gateway inspects. -/
structure ApiData where
  /-- is `data.date.readable` present and non-empty? -/
  readable : Bool
  /-- `data.date.gregorian.date`: `none` = field missing; `some none` =
  present but not parseable as `DD-MM-YYYY`; `some (some d)` = parses to
  day number `d`. -/
  gregorian : Option (Option Int)
  /-- `data.timings`: `none` = field missing; otherwise the dict. -/
  timings : Option Timings
deriving DecidableEq, Repr

/-- Embeds `validate_api_response` (src/fazkerbot.py lines 48-80): false when the
readable or gregorian date field is missing or the gregorian date does not
parse; when the parsed date differs from the requested date, true exactly
when the difference is at most one day; true on exact match. -/
def validate_api_response (data : ApiData) (requested_date : Int) : Bool :=
  match data.gregorian, data.readable with
  | some (some api_date), true =>
    if api_date ≠ requested_date then
      if (api_date - requested_date).natAbs ≤ 1 then true else false
    else true
  | _, _ => false

/-- Embeds `try_city_api` (src/fazkerbot.py lines 104-156).  Note lines 138-139:
the result of `validate_api_response` is only logged ("validation failed,
but continuing..."); it does not affect acceptance.  The response is
rejected only on transport failure, a missing or empty `timings` dict, or
a `timings` dict lacking `Fajr` or `Asr`. -/
def try_city_api (resp : Option ApiData) (target_date : Int) : Option Timings :=
  match resp with
  | none => none
  | some data =>
    let _ := validate_api_response data target_date
    match data.timings with
    | none => none
    | some timings =>
      if timings = [] then none
      else if (timings.lookup "Fajr").isSome && (timings.lookup "Asr").isSome then
        some timings
      else none

/-- Embeds `try_coordinates_api` (src/fazkerbot.py lines 158-204): identical
checks against the coordinate-keyed endpoint's response. -/
def try_coordinates_api (resp : Option ApiData) (target_date : Int) : Option Timings :=
  match resp with
  | none => none
  | some data =>
    let _ := validate_api_response data target_date
    match data.timings with
    | none => none
    | some timings =>
      if timings = [] then none
      else if (timings.lookup "Fajr").isSome && (timings.lookup "Asr").isSome then
        some timings
      else none

/-- Embeds `fetch_prayer_times_with_fallback` (src/fazkerbot.py lines 82-102):
city endpoint first, then coordinates, then the static fallback table. -/
def fetch_prayer_times_with_fallback (city_resp coords_resp : Option ApiData)
    (target_date : Int) : Timings :=
  match try_city_api city_resp target_date with
  | some timings => timings
  | none =>
    match try_coordinates_api coords_resp target_date with
    | some timings => timings
    | none => FALLBACK_PRAYER_TIMES

/-! ### Task planner (src/fazkerbot.py lines 429-629)

Instants are minutes since the epoch; `mkDT day h m = day * 1440 + 60 * h + m`
models `CAIRO_TZ.localize(datetime.combine(target_date, time(h, m)))` and
`dtDate` models `datetime.date()`. -/

/-- Minutes-since-epoch instant for minute `mi` of hour `h` of day `day`. -/
def mkDT (day h mi : Int) : Int := day * 1440 + h * 60 + mi

/-- Calendar day of an instant (`datetime.date()`). -/
def dtDate (t : Int) : Int := t / 1440

/-- Python `time_str.split(':')` restricted to the `':'` separator:
structural split of the character list. -/
def splitColonAux : List Char → List Char → List String
  | [], acc => [String.mk acc.reverse]
  | c :: cs, acc =>
    if c = ':' then String.mk acc.reverse :: splitColonAux cs []
    else splitColonAux cs (c :: acc)

/-- Python `time_str.split(':')`. -/
def pySplitColon (s : String) : List String := splitColonAux s.data []

/-- Numeric value of a decimal digit character, `none` otherwise. -/
def digitVal (c : Char) : Option Nat :=
  if '0' ≤ c ∧ c ≤ '9' then some (c.toNat - '0'.toNat) else none

/-- Accumulator loop for `pyIntOfStr`. -/
def pyIntAux : List Char → Nat → Option Nat
  | [], n => some n
  | c :: cs, n =>
    match digitVal c with
    | some d => pyIntAux cs (n * 10 + d)
    | none => none

/-- Python `int(s)` on the digit strings produced by the providers:
`none` models the `ValueError` path (caught by the planner). -/
def pyIntOfStr (s : String) : Option Nat :=
  match s.data with
  | [] => none
  | cs => pyIntAux cs 0

/-- The body of `get_prayer_time` inside `schedule_tasks`
(src/fazkerbot.py lines 459-473) applied to one `"HH:MM"` string:
rejects empty strings or strings not splitting into exactly two `':'`
fields; parses hour and minute with `int` (`none` on `ValueError`); the
`datetime.min.time().replace(hour=..., minute=...)` call raises (hence
`none`) outside `0 ≤ h ≤ 23`, `0 ≤ mi ≤ 59`. -/
def parse_time_hhmm (s : String) : Option (Int × Int) :=
  if s = "" then none
  else
    match pySplitColon s with
    | [hs, ms] =>
      match pyIntOfStr hs, pyIntOfStr ms with
      | some h, some mi =>
        if h ≤ 23 ∧ mi ≤ 59 then some ((h : Int), (mi : Int)) else none
      | _, _ => none
    | _ => none

/-- Embeds `get_prayer_time` (src/fazkerbot.py lines 459-473): looks the prayer
up in the timings dict (`KeyError` is caught, giving `none`), parses the
`HH:MM` string and combines it with the target date. -/
def get_prayer_time (prayer : String) (target_date : Int) (times : Timings) :
    Option Int :=
  match times.lookup prayer with
  | none => none
  | some s =>
    match parse_time_hhmm s with
    | none => none
    | some hm => some (mkDT target_date hm.1 hm.2)

/-- The `'type'` field of a `DAILY_TASKS` entry. -/
inductive TaskKind where
  | morning_athkar
  | evening_athkar
  | quran
deriving DecidableEq, Repr

/-- One `DAILY_TASKS` entry: its kind, its fire instant, and — for the
quran task — the page pair embedded in its description
(src/fazkerbot.py lines 505-540, 562-588). -/
structure STask where
  kind : TaskKind
  time : Int
  pages : Option (Int × Int)
deriving DecidableEq, Repr

/-- Embeds `schedule_tasks` (src/fazkerbot.py lines 429-629) as a pure planning
function: given `now`, today's date, and the two fetched timing tables, it
returns the `DAILY_TASKS` list that the job-scheduling loop registers, or
`none` on the early-return paths (unparseable critical prayer times,
lines 479-481 and 546-555).  The branch structure mirrors lines 499-589:
the morning task rolls to tomorrow when its time has passed; the evening
branch moves *both* evening and quran tasks to tomorrow when the evening
time has passed; tomorrow's times are fetched only when needed. -/
def schedule_tasks_pure (now today : Int) (times_today times_tomorrow : Timings) :
    Option (List STask) :=
  let tomorrow := today + 1
  match get_prayer_time "Fajr" today times_today,
        get_prayer_time "Asr" today times_today with
  | some fajr_time_today, some asr_time_today =>
    let morning_athkar_time := fajr_time_today + 35
    let evening_athkar_time := asr_time_today + 30
    let quran_time := evening_athkar_time + 10
    let today_morning : List STask :=
      if morning_athkar_time ≤ now then []
      else [⟨TaskKind.morning_athkar, morning_athkar_time, none⟩]
    let morning_tomorrow : Bool := morning_athkar_time ≤ now
    let evening_branch : List STask × Bool × Bool :=
      if evening_athkar_time ≤ now then ([], true, true)
      else if quran_time ≤ now then
        ([⟨TaskKind.evening_athkar, evening_athkar_time, none⟩], false, true)
      else
        ([⟨TaskKind.evening_athkar, evening_athkar_time, none⟩,
          ⟨TaskKind.quran, quran_time,
           some (get_next_quran_pages_for_date today)⟩], false, false)
    let today_tasks := today_morning ++ evening_branch.1
    let evening_tomorrow := evening_branch.2.1
    let quran_tomorrow := evening_branch.2.2
    if morning_tomorrow || evening_tomorrow || quran_tomorrow then
      match get_prayer_time "Fajr" tomorrow times_tomorrow,
            get_prayer_time "Asr" tomorrow times_tomorrow with
      | some fajr_time_tomorrow, some asr_time_tomorrow =>
        let morning_athkar_tomorrow := fajr_time_tomorrow + 35
        let evening_athkar_tomorrow := asr_time_tomorrow + 30
        let quran_time_tomorrow := evening_athkar_tomorrow + 10
        some (today_tasks
          ++ (if morning_tomorrow then
                [⟨TaskKind.morning_athkar, morning_athkar_tomorrow, none⟩]
              else [])
          ++ (if evening_tomorrow then
                [⟨TaskKind.evening_athkar, evening_athkar_tomorrow, none⟩]
              else [])
          ++ (if quran_tomorrow then
                [⟨TaskKind.quran, quran_time_tomorrow,
                  some (get_next_quran_pages_for_date tomorrow)⟩]
              else []))
      | _, _ => none
    else some today_tasks
  | _, _ => none

/-- The date argument passed to the quran job when it is registered:
`task_date = task['time'].date()` (src/fazkerbot.py line 613). -/
def quran_task_date (t : STask) : Int := dtDate t.time

/-- The page pair that `send_quran_pages` resolves and posts for its
`target_date` argument (src/fazkerbot.py line 385). -/
def send_quran_pages_pages (target_date : Int) : Int × Int :=
  get_next_quran_pages_for_date target_date

end Muthaker

namespace FazkerbotN

/-- The `message_ids` record of src/fazkerbot_n.py (lines 77-84): the most
recently posted message id for each reminder kind, `none` when absent
(the JSON default is `{"morning": None, "night": None}`). -/
structure MsgIds where
  morning : Option Nat
  night : Option Nat
deriving DecidableEq, Repr

/-- Python dict read `message_ids[k]` for `k ∈ {"morning", "night"}`. -/
def MsgIds.get (st : MsgIds) (k : String) : Option Nat :=
  if k = "morning" then st.morning else st.night

/-- Python dict write `message_ids[k] = v`. -/
def MsgIds.set (st : MsgIds) (k : String) (v : Option Nat) : MsgIds :=
  if k = "morning" then { st with morning := v } else { st with night := v }

/-- Python truthiness of an optional message id
(`if message_ids[previous_time]:`). -/
def truthy : Option Nat → Bool
  | none => false
  | some i => i != 0

/-- Outcome of the `bot.delete_message` call at src/fazkerbot_n.py line
161, when it is made: success; a raised `telegram.error.BadRequest`
(the only class the inner `except` at lines 163-167 catches — both its
"Message to delete not found" and other messages are only logged); or a
raised `TelegramError` of any other class, which the inner `except` does
*not* catch. -/
inductive DeleteOutcome where
  | ok
  | badRequest
  | otherError
deriving DecidableEq, Repr

/-- Embeds `send_athkar` (src/fazkerbot_n.py lines 151-175).  `post_result`
is the outcome of `bot.send_photo`: `none` models a raised
`TelegramError` (caught at lines 172-175, leaving the record untouched
and issuing no delete); `some new_id` is a successful post.  On success,
when the opposite kind's recorded id is truthy, `bot.delete_message` is
called on it (the call is recorded in the returned list); if that call
raises a non-`BadRequest` `TelegramError` (`DeleteOutcome.otherError`),
the inner `except` at lines 163-167 does not catch it, the exception
propagates to the outer handler, and the record update at lines 169-171
is skipped.  Otherwise (delete succeeded, raised `BadRequest`, or was
not attempted) the opposite record is cleared and this kind's record is
set to the new id. -/
def send_athkar (time_of_day : String) (post_result : Option Nat)
    (delete_outcome : DeleteOutcome) (st : MsgIds) : MsgIds × List Nat :=
  match post_result with
  | none => (st, [])
  | some new_id =>
    let previous_time := if time_of_day = "morning" then "night" else "morning"
    let prev := st.get previous_time
    if truthy prev then
      if delete_outcome = DeleteOutcome.otherError then
        (st, [prev.getD 0])
      else
        ((st.set previous_time none).set time_of_day (some new_id), [prev.getD 0])
    else
      ((st.set previous_time none).set time_of_day (some new_id), [])

end FazkerbotN

namespace Muthaker

/-! ### Example data used to instantiate the planner theorems -/

/-- Example timings table for "today" in the planner scenarios. -/
def exTimesToday : Timings := [("Fajr", "04:30"), ("Asr", "16:30")]

/-- Example timings table for "tomorrow" in the planner scenarios. -/
def exTimesTomorrow : Timings := [("Fajr", "04:31"), ("Asr", "16:31")]

/-- Example planning date: 2025-06-01. -/
def exToday : Int := daysFromCivil 2025 6 1

/-- A planning instant at 17:05, inside the 10-minute window after the
evening fire time (16:30 + 30min = 17:00) and before the document fire
time (17:10). -/
def exNow : Int := mkDT exToday 17 5

/-- A planning instant at 12:00: the morning fire time (04:30 + 35min)
has elapsed, the evening fire time (17:00) has not. -/
def exNow2 : Int := mkDT exToday 12 0

/-- The plan produced at `exNow`: all three tasks on tomorrow's schedule. -/
def exPlanTomorrow : List STask :=
  [⟨TaskKind.morning_athkar, mkDT (exToday + 1) 4 31 + 35, none⟩,
   ⟨TaskKind.evening_athkar, mkDT (exToday + 1) 16 31 + 30, none⟩,
   ⟨TaskKind.quran, mkDT (exToday + 1) 16 31 + 30 + 10,
    some (get_next_quran_pages_for_date (exToday + 1))⟩]

/-- The plan produced at `exNow2`: evening and quran tasks today, morning
task rolled to tomorrow. -/
def exPlanMixed : List STask :=
  [⟨TaskKind.evening_athkar, mkDT exToday 16 30 + 30, none⟩,
   ⟨TaskKind.quran, mkDT exToday 16 30 + 30 + 10,
    some (get_next_quran_pages_for_date exToday)⟩,
   ⟨TaskKind.morning_athkar, mkDT (exToday + 1) 4 31 + 35, none⟩]

/-- A city-endpoint response whose embedded gregorian date (2025-06-06)
is five days away from the requested date (2025-06-01), with a
well-formed timings dict: date validation rejects it. -/
def exBadDateTimings : Timings := [("Fajr", "05:00"), ("Asr", "15:00")]

/-- See `exBadDateTimings`. -/
def exBadDateData : ApiData :=
  ⟨true, some (some (daysFromCivil 2025 6 6)), some exBadDateTimings⟩

/-- Example timings table with the afternoon marker at 23:30: the
evening fire time (23:30 + 30min) and the document fire time (+10min
more) fall past midnight, on the next calendar day. -/
def exLateTimesToday : Timings := [("Fajr", "04:30"), ("Asr", "23:30")]

/-- The plan produced at `exNow2` (12:00) against `exLateTimesToday`:
evening and document tasks stay on today's schedule — carrying today's
page pair — although their fire instants lie on the next calendar day;
the morning task rolls to tomorrow. -/
def exLatePlan : List STask :=
  [⟨TaskKind.evening_athkar, mkDT exToday 23 30 + 30, none⟩,
   ⟨TaskKind.quran, mkDT exToday 23 30 + 30 + 10,
    some (get_next_quran_pages_for_date exToday)⟩,
   ⟨TaskKind.morning_athkar, mkDT (exToday + 1) 4 31 + 35, none⟩]

/-- A city-endpoint response whose embedded gregorian date (2025-06-02)
is one day after the requested date (2025-06-01): validation accepts the
skew. -/
def exSkewData : ApiData :=
  ⟨true, some (some (daysFromCivil 2025 6 2)), some exTimesToday⟩

/-! ### Helper lemmas -/

theorem wrapLoop_emod_aux (n : Nat) :
    ∀ p : Int, (1 - p).toNat ≤ n → p ≤ 0 → wrapLoop p = (p - 1) % 604 + 1 := by
  induction n with
  | zero =>
    intro p h hp
    omega
  | succ n ih =>
    intro p h hp
    rw [wrapLoop.eq_def]
    simp only [hp, dite_true]
    by_cases h2 : p + 604 ≤ 0
    · rw [ih (p + 604) (by omega) h2]
      omega
    · rw [wrapLoop.eq_def]
      simp only [h2, dite_false]
      omega

theorem wrapLoop_emod (p : Int) (hp : p ≤ 0) : wrapLoop p = (p - 1) % 604 + 1 :=
  wrapLoop_emod_aux (1 - p).toNat p le_rfl hp

/-- The complete wrap helper is the Euclidean-remainder map into `[1, 604]`. -/
theorem wrap_emod (p : Int) : wrap p = (p - 1) % 604 + 1 := by
  unfold wrap
  by_cases h1 : p ≤ 0
  · simp only [h1, if_true]
    exact wrapLoop_emod p h1
  · by_cases h2 : p > 604
    · simp only [h1, h2, if_true, if_false]
    · simp only [h1, h2, if_true, if_false]
      omega

/-- Closed form of the page-rotation function. -/
theorem pages_eq (d : Int) :
    get_next_quran_pages_for_date d =
      ((1 + (d - daysFromCivil 2025 5 26) * 2) % 604 + 1,
       (2 + (d - daysFromCivil 2025 5 26) * 2) % 604 + 1) := by
  simp only [get_next_quran_pages_for_date]
  rw [wrap_emod, wrap_emod, Prod.mk.injEq]
  constructor <;> omega

/-- The two provider helpers perform literally identical checks. -/
theorem try_coordinates_eq_city : try_coordinates_api = try_city_api := rfl

/-- Any timings accepted by `try_city_api` contains `Fajr` and `Asr` and
is non-empty. -/
theorem try_city_api_sound (resp : Option ApiData) (target : Int) (t : Timings)
    (h : try_city_api resp target = some t) :
    (t.lookup "Fajr").isSome ∧ (t.lookup "Asr").isSome ∧ t ≠ [] := by
  unfold try_city_api at h
  cases resp with
  | none => exact absurd h (by simp)
  | some d =>
    simp only at h
    rcases hdt : d.timings with _ | timings
    · rw [hdt] at h; simp at h
    · rw [hdt] at h
      by_cases he : timings = []
      · simp [he] at h
      · by_cases hfa : ((timings.lookup "Fajr").isSome && (timings.lookup "Asr").isSome) = true
        · simp only [he, hfa, if_true, if_false] at h
          obtain rfl : timings = t := by simpa using h
          simp only [Bool.and_eq_true] at hfa
          exact ⟨hfa.1, hfa.2, he⟩
        · simp [he, hfa] at h

/-- Closed form of the planner on successfully parsed prayer times: the
morning task rolls by its own fire time; the evening-reminder and
document tasks roll together, governed by the evening fire time alone. -/
theorem schedule_tasks_pure_eq (now today : Int) (tT tTom : Timings)
    (f a fm am : Int)
    (hf : get_prayer_time "Fajr" today tT = some f)
    (ha : get_prayer_time "Asr" today tT = some a)
    (hfm : get_prayer_time "Fajr" (today + 1) tTom = some fm)
    (ham : get_prayer_time "Asr" (today + 1) tTom = some am) :
    schedule_tasks_pure now today tT tTom = some (
      (if f + 35 ≤ now then []
       else [⟨TaskKind.morning_athkar, f + 35, none⟩])
      ++ (if a + 30 ≤ now then []
          else [⟨TaskKind.evening_athkar, a + 30, none⟩,
                ⟨TaskKind.quran, a + 30 + 10,
                 some (get_next_quran_pages_for_date today)⟩])
      ++ (if f + 35 ≤ now then [⟨TaskKind.morning_athkar, fm + 35, none⟩] else [])
      ++ (if a + 30 ≤ now then [⟨TaskKind.evening_athkar, am + 30, none⟩] else [])
      ++ (if a + 30 ≤ now then
            [⟨TaskKind.quran, am + 30 + 10,
              some (get_next_quran_pages_for_date (today + 1))⟩]
          else [])) := by
  unfold schedule_tasks_pure
  rw [hf, ha]
  simp only [hfm, ham]
  by_cases h1 : a + 30 ≤ now
  · by_cases h2 : f + 35 ≤ now <;> simp [h1, h2]
  · have h3 : ¬ (a + 30 + 10 ≤ now) := by omega
    by_cases h2 : f + 35 ≤ now <;> simp [h1, h2, h3]

end Muthaker

namespace Muthaker

/-! ### Claim theorems -/

/-- C3 (counterexample): the claim's scenario fails on the code.  The
source anchors the rotation at 2025-05-26 (src/fazkerbot.py line 296),
not 2025-05-27, so the pages for 2025-05-29 are (8, 9), not (6, 7). -/
theorem c3_counterexample :
    get_next_quran_pages_for_date (daysFromCivil 2025 5 29) = (8, 9) ∧
    get_next_quran_pages_for_date (daysFromCivil 2025 5 29) ≠ (6, 7) := by
  constructor <;> decide

/-- C3 (amended): with the code's anchor (2025-05-26, pages 2-3) and
`total_pages = 604`, the rotation yields (2, 3) on the anchor date,
(8, 9) for 2025-05-29, and the wrap pair (604, 1) for 2025-05-25 — the
date two days before 2025-05-27, i.e. one day before the code's anchor. -/
theorem c3_amended_scenario :
    get_next_quran_pages_for_date (daysFromCivil 2025 5 26) = (2, 3)
    ∧ get_next_quran_pages_for_date (daysFromCivil 2025 5 29) = (8, 9)
    ∧ get_next_quran_pages_for_date (daysFromCivil 2025 5 25) = (604, 1) := by
  refine ⟨by decide, by decide, ?_⟩
  rw [pages_eq]
  decide

/-- C4: for every date the page-rotation function is total and
deterministic, both components lie in `[1, 604]`, and the result is
either `(p, p + 1)` with `1 ≤ p ≤ 603` or the wrap pair `(604, 1)`. -/
theorem c4_pages_total_range (d : Int) :
    (1 ≤ (get_next_quran_pages_for_date d).1
      ∧ (get_next_quran_pages_for_date d).1 ≤ 604
      ∧ 1 ≤ (get_next_quran_pages_for_date d).2
      ∧ (get_next_quran_pages_for_date d).2 ≤ 604
      ∧ (((get_next_quran_pages_for_date d).2 = (get_next_quran_pages_for_date d).1 + 1
            ∧ (get_next_quran_pages_for_date d).1 ≤ 603)
         ∨ ((get_next_quran_pages_for_date d).1 = 604
            ∧ (get_next_quran_pages_for_date d).2 = 1)))
    ∧ get_next_quran_pages_for_date d = get_next_quran_pages_for_date d := by
  refine ⟨?_, rfl⟩
  simp only [pages_eq]
  omega

/-- C5: consecutive dates advance the low page by exactly 2, except at
the wrap boundary (low page 604), where the advance is `2 - 604`. -/
theorem c5_monotonic_advance (d : Int) :
    ((get_next_quran_pages_for_date (d + 1)).1 - (get_next_quran_pages_for_date d).1 = 2
      ∧ (get_next_quran_pages_for_date d).1 ≠ 604)
    ∨ ((get_next_quran_pages_for_date (d + 1)).1 - (get_next_quran_pages_for_date d).1
        = 2 - 604
      ∧ (get_next_quran_pages_for_date d).1 = 604) := by
  simp only [pages_eq]
  omega

/-- C10: for every date, the high page is `(low % 604) + 1`, the low page
is even and the high page odd: the even anchor pages, the step of 2 and
the even total 604 preserve parity through both wrap rules. -/
theorem c10_parity_invariant (d : Int) :
    (get_next_quran_pages_for_date d).2
      = ((get_next_quran_pages_for_date d).1 % 604) + 1
    ∧ (get_next_quran_pages_for_date d).1 % 2 = 0
    ∧ (get_next_quran_pages_for_date d).2 % 2 = 1 := by
  simp only [pages_eq]
  omega

end Muthaker

namespace Muthaker

/-- C1 (counterexample): at 17:05, after today's evening fire time
(17:00) but before the document fire time (17:10), the planner does
*not* keep the still-future document task on today's schedule: every
planned task, the document task included, fires on tomorrow's date. -/
theorem c1_counterexample :
    (mkDT exToday 16 30 + 30 ≤ exNow ∧ exNow < mkDT exToday 16 30 + 30 + 10)
    ∧ schedule_tasks_pure exNow exToday exTimesToday exTimesTomorrow
        = some exPlanTomorrow
    ∧ ∀ t ∈ exPlanTomorrow, dtDate t.time ≠ exToday := by
  refine ⟨by decide, ?_, by decide⟩
  decide

/-- C1 (amended): sibling tasks are not all evaluated independently.  The
morning task is planned for tomorrow if and only if its own fire time has
elapsed, but the evening-reminder and document-pages tasks are grouped:
when the evening fire time has elapsed, *both* are planned for tomorrow —
even a document task whose own fire time is still in the future — and
otherwise both stay on today's schedule. -/
theorem c1_grouped_rollover (now today : Int) (tT tTom : Timings)
    (f a fm am : Int)
    (hf : get_prayer_time "Fajr" today tT = some f)
    (ha : get_prayer_time "Asr" today tT = some a)
    (hfm : get_prayer_time "Fajr" (today + 1) tTom = some fm)
    (ham : get_prayer_time "Asr" (today + 1) tTom = some am) :
    schedule_tasks_pure now today tT tTom = some (
      (if f + 35 ≤ now then []
       else [⟨TaskKind.morning_athkar, f + 35, none⟩])
      ++ (if a + 30 ≤ now then []
          else [⟨TaskKind.evening_athkar, a + 30, none⟩,
                ⟨TaskKind.quran, a + 30 + 10,
                 some (get_next_quran_pages_for_date today)⟩])
      ++ (if f + 35 ≤ now then [⟨TaskKind.morning_athkar, fm + 35, none⟩] else [])
      ++ (if a + 30 ≤ now then [⟨TaskKind.evening_athkar, am + 30, none⟩] else [])
      ++ (if a + 30 ≤ now then
            [⟨TaskKind.quran, am + 30 + 10,
              some (get_next_quran_pages_for_date (today + 1))⟩]
          else [])) :=
  schedule_tasks_pure_eq now today tT tTom f a fm am hf ha hfm ham

/-- C1 (witness): the amended theorem instantiated at 12:00 — the morning
fire time has elapsed, the evening one has not — yielding evening and
document tasks today and the morning task tomorrow. -/
theorem c1_grouped_rollover_witness :
    get_prayer_time "Fajr" exToday exTimesToday = some (mkDT exToday 4 30)
    ∧ get_prayer_time "Asr" exToday exTimesToday = some (mkDT exToday 16 30)
    ∧ get_prayer_time "Fajr" (exToday + 1) exTimesTomorrow
        = some (mkDT (exToday + 1) 4 31)
    ∧ get_prayer_time "Asr" (exToday + 1) exTimesTomorrow
        = some (mkDT (exToday + 1) 16 31)
    ∧ schedule_tasks_pure exNow2 exToday exTimesToday exTimesTomorrow
        = some exPlanMixed :=
  ⟨by decide, by decide, by decide, by decide,
   (c1_grouped_rollover exNow2 exToday exTimesToday exTimesTomorrow
      (mkDT exToday 4 30) (mkDT exToday 16 30)
      (mkDT (exToday + 1) 4 31) (mkDT (exToday + 1) 16 31)
      (by decide) (by decide) (by decide) (by decide)).trans (by decide)⟩

/-- C2 (counterexample): the record update after a successful post is
not unconditional.  With the morning id 5 recorded (the state after the
morning post), a successful evening ("night") post whose delete of the
morning message raises a non-`BadRequest` `TelegramError` (e.g.
`RetryAfter`) escapes the inner `except` of src/fazkerbot_n.py lines
163-167; the outer handler catches it past lines 169-171, so the night
record is not set to the new id and the morning record is not cleared —
although the post succeeded and exactly one delete call, referencing the
recorded morning id, was made. -/
theorem c2_counterexample :
    (FazkerbotN.send_athkar "night" (some 7) FazkerbotN.DeleteOutcome.otherError
       ⟨some 5, none⟩).1 = ⟨some 5, none⟩
    ∧ (FazkerbotN.send_athkar "night" (some 7) FazkerbotN.DeleteOutcome.otherError
       ⟨some 5, none⟩).1.night ≠ some 7
    ∧ (FazkerbotN.send_athkar "night" (some 7) FazkerbotN.DeleteOutcome.otherError
       ⟨some 5, none⟩).2 = [5] := by decide

/-- C2 (amended): the replace lifecycle of `send_athkar`
(src/fazkerbot_n.py lines 151-175), provided any attempted delete call
does not raise a non-`BadRequest` `TelegramError`.  From the empty
record, posting the morning reminder issues no delete and records the
morning id; posting the evening ("night") reminder next issues exactly
one delete, referencing the recorded morning id, and leaves only the
night id recorded.  In general, under the same proviso, a successful
post of a kind sets that kind's record to the new id and clears the
opposite kind's record, whatever the prior state; when the delete does
raise a non-`BadRequest` error, the update is skipped (see the
counterexample). -/
theorem c2_replace_lifecycle (m n : Nat) (del : FazkerbotN.DeleteOutcome)
    (hm : m ≠ 0) (hdel : del ≠ FazkerbotN.DeleteOutcome.otherError) :
    (FazkerbotN.send_athkar "morning" (some m) del ⟨none, none⟩).2 = []
    ∧ (FazkerbotN.send_athkar "morning" (some m) del ⟨none, none⟩).1 = ⟨some m, none⟩
    ∧ (FazkerbotN.send_athkar "night" (some n) del
        (FazkerbotN.send_athkar "morning" (some m) del ⟨none, none⟩).1).2 = [m]
    ∧ (FazkerbotN.send_athkar "night" (some n) del
        (FazkerbotN.send_athkar "morning" (some m) del ⟨none, none⟩).1).1
        = ⟨none, some n⟩
    ∧ (∀ st : FazkerbotN.MsgIds,
        (FazkerbotN.send_athkar "morning" (some m) del st).1 = ⟨some m, none⟩)
    ∧ (∀ st : FazkerbotN.MsgIds,
        (FazkerbotN.send_athkar "night" (some n) del st).1 = ⟨none, some n⟩) := by
  have hm2 : (m != 0) = true := by simpa using hm
  refine ⟨?_, ?_, ?_, ?_, ?_, ?_⟩
  · simp [FazkerbotN.send_athkar, FazkerbotN.MsgIds.get, FazkerbotN.MsgIds.set,
      FazkerbotN.truthy, hdel]
  · simp [FazkerbotN.send_athkar, FazkerbotN.MsgIds.get, FazkerbotN.MsgIds.set,
      FazkerbotN.truthy, hdel]
  · simp [FazkerbotN.send_athkar, FazkerbotN.MsgIds.get, FazkerbotN.MsgIds.set,
      FazkerbotN.truthy, hm2, hdel]
  · simp [FazkerbotN.send_athkar, FazkerbotN.MsgIds.get, FazkerbotN.MsgIds.set,
      FazkerbotN.truthy, hm2, hdel]
  · intro st
    by_cases h : FazkerbotN.truthy st.night <;>
      simp [FazkerbotN.send_athkar, FazkerbotN.MsgIds.get, FazkerbotN.MsgIds.set,
        h, hdel]
  · intro st
    by_cases h : FazkerbotN.truthy st.morning <;>
      simp [FazkerbotN.send_athkar, FazkerbotN.MsgIds.get, FazkerbotN.MsgIds.set,
        h, hdel]

/-- C2 (witness): the amended lifecycle theorem at message ids 5 and 7
with all delete calls succeeding. -/
theorem c2_replace_lifecycle_witness :
    (5 : Nat) ≠ 0
    ∧ FazkerbotN.DeleteOutcome.ok ≠ FazkerbotN.DeleteOutcome.otherError
    ∧ ((FazkerbotN.send_athkar "morning" (some 5) FazkerbotN.DeleteOutcome.ok
         ⟨none, none⟩).2 = []
       ∧ (FazkerbotN.send_athkar "morning" (some 5) FazkerbotN.DeleteOutcome.ok
           ⟨none, none⟩).1 = ⟨some 5, none⟩
       ∧ (FazkerbotN.send_athkar "night" (some 7) FazkerbotN.DeleteOutcome.ok
           (FazkerbotN.send_athkar "morning" (some 5) FazkerbotN.DeleteOutcome.ok
             ⟨none, none⟩).1).2 = [5]
       ∧ (FazkerbotN.send_athkar "night" (some 7) FazkerbotN.DeleteOutcome.ok
           (FazkerbotN.send_athkar "morning" (some 5) FazkerbotN.DeleteOutcome.ok
             ⟨none, none⟩).1).1 = ⟨none, some 7⟩
       ∧ (∀ st : FazkerbotN.MsgIds,
           (FazkerbotN.send_athkar "morning" (some 5) FazkerbotN.DeleteOutcome.ok
             st).1 = ⟨some 5, none⟩)
       ∧ (∀ st : FazkerbotN.MsgIds,
           (FazkerbotN.send_athkar "night" (some 7) FazkerbotN.DeleteOutcome.ok
             st).1 = ⟨none, some 7⟩)) :=
  ⟨by decide, by decide,
   c2_replace_lifecycle 5 7 FazkerbotN.DeleteOutcome.ok (by decide) (by decide)⟩

end Muthaker

namespace Muthaker

/-- C6 (counterexample): a city response whose embedded date is five days
off the requested date is rejected by validation, yet the gateway keeps
it: `try_city_api` accepts the response and the coordinate-keyed provider
is never consulted (the fetch returns the bad-dated timings, not the
coordinate result or the fallback). -/
theorem c6_counterexample :
    validate_api_response exBadDateData (daysFromCivil 2025 6 1) = false
    ∧ try_city_api (some exBadDateData) (daysFromCivil 2025 6 1)
        = some exBadDateTimings
    ∧ fetch_prayer_times_with_fallback (some exBadDateData) none
        (daysFromCivil 2025 6 1) = exBadDateTimings := by
  refine ⟨by decide, by decide, by decide⟩

/-- C6 (amended): the date validation verdict is computed but ignored
(only logged): a response within one day of the requested date validates
true, but acceptance of any response depends only on the presence of a
non-empty `timings` dict containing `Fajr` and `Asr`; the coordinate
provider — with identical checks — is consulted exactly when the city
attempt yields nothing (transport failure, or missing timings/fields). -/
theorem c6_validation_ignored (d : ApiData) (target g : Int)
    (hg : d.gregorian = some (some g)) (hr : d.readable = true)
    (hskew : (g - target).natAbs ≤ 1) :
    validate_api_response d target = true
    ∧ (∀ e : ApiData,
        try_city_api (some e) target =
          match e.timings with
          | none => none
          | some timings =>
            if timings = [] then none
            else if (timings.lookup "Fajr").isSome && (timings.lookup "Asr").isSome
              then some timings
            else none)
    ∧ try_city_api none target = none
    ∧ (∀ c : Option ApiData,
        fetch_prayer_times_with_fallback none c target =
          match try_coordinates_api c target with
          | some t => t
          | none => FALLBACK_PRAYER_TIMES) := by
  refine ⟨?_, fun e => rfl, rfl, fun c => rfl⟩
  unfold validate_api_response
  rw [hg, hr]
  by_cases heq : g = target
  · simp [heq]
  · simp [heq, hskew]

/-- C6 (witness): the amended theorem at a response dated one day after
the requested 2025-06-01. -/
theorem c6_validation_ignored_witness :
    exSkewData.gregorian = some (some (daysFromCivil 2025 6 2))
    ∧ exSkewData.readable = true
    ∧ (daysFromCivil 2025 6 2 - daysFromCivil 2025 6 1).natAbs ≤ 1
    ∧ validate_api_response exSkewData (daysFromCivil 2025 6 1) = true :=
  ⟨rfl, rfl, by decide,
   (c6_validation_ignored exSkewData (daysFromCivil 2025 6 1)
      (daysFromCivil 2025 6 2) rfl rfl (by decide)).1⟩

/-- C7: when both providers fail, the gateway returns the static fallback
table, and a planning pass run against that table still yields a plan —
a non-empty task list — rather than no plan at all. -/
theorem c7_fallback_activation (city coords : Option ApiData)
    (target now today : Int)
    (h1 : try_city_api city target = none)
    (h2 : try_coordinates_api coords target = none) :
    fetch_prayer_times_with_fallback city coords target = FALLBACK_PRAYER_TIMES
    ∧ ∃ L, schedule_tasks_pure now today FALLBACK_PRAYER_TIMES FALLBACK_PRAYER_TIMES
            = some L ∧ L ≠ [] := by
  constructor
  · unfold fetch_prayer_times_with_fallback
    rw [h1, h2]
  · refine ⟨_, schedule_tasks_pure_eq now today _ _ (mkDT today 4 30)
      (mkDT today 16 30) (mkDT (today + 1) 4 30) (mkDT (today + 1) 16 30)
      rfl rfl rfl rfl, ?_⟩
    by_cases hA : mkDT today 16 30 + 30 ≤ now <;>
      by_cases hB : mkDT today 4 30 + 35 ≤ now <;>
        simp [hA, hB]

/-- C7 (witness): both providers failing by transport error on day 0. -/
theorem c7_fallback_activation_witness :
    try_city_api none 0 = none
    ∧ try_coordinates_api none 0 = none
    ∧ (fetch_prayer_times_with_fallback none none 0 = FALLBACK_PRAYER_TIMES
       ∧ ∃ L, schedule_tasks_pure 0 0 FALLBACK_PRAYER_TIMES FALLBACK_PRAYER_TIMES
              = some L ∧ L ≠ []) :=
  ⟨rfl, rfl, c7_fallback_activation none none 0 0 0 rfl rfl⟩

/-- C8 (counterexample): the document task's page pair does not always
match the date it fires on.  With the afternoon marker at 23:30 — a
well-formed time the code accepts — the document fire instant (23:30 +
30min + 10min) lies on the next calendar day; at a 12:00 planning
instant the task stays on today's schedule and carries the page pair for
the planning date `exToday` (src/fazkerbot.py line 528), yet its fire
date — `task['time'].date()`, the date the callback resolves pages from
(lines 613 and 385) — is `exToday + 1`, whose page pair differs. -/
theorem c8_counterexample :
    schedule_tasks_pure exNow2 exToday exLateTimesToday exTimesTomorrow
      = some exLatePlan
    ∧ (⟨TaskKind.quran, mkDT exToday 23 30 + 30 + 10,
        some (get_next_quran_pages_for_date exToday)⟩ : STask) ∈ exLatePlan
    ∧ quran_task_date (⟨TaskKind.quran, mkDT exToday 23 30 + 30 + 10,
        some (get_next_quran_pages_for_date exToday)⟩ : STask) = exToday + 1
    ∧ some (get_next_quran_pages_for_date exToday)
        ≠ some (send_quran_pages_pages (exToday + 1)) := by decide

/-- C8 (amended): whenever the planner produces a plan *and* the document
fire instants fall on the calendar day of the schedule they were planned
against (fire times do not cross midnight — `hd1`/`hd2`), every
document-pages task carries exactly the page pair that the rotation
function computes for the calendar date the task fires on — today's date
when it stays today, tomorrow's when it rolls over — and the firing
callback `send_quran_pages`, invoked with the task's fire date
(`task['time'].date()`), resolves its pages from that same date.  When an
evening fire time crosses midnight the carried pair is the planning
schedule's, not the fire date's — see the counterexample. -/
theorem c8_pages_match_fire_date (now today : Int) (tT tTom : Timings)
    (f a fm am : Int)
    (hf : get_prayer_time "Fajr" today tT = some f)
    (ha : get_prayer_time "Asr" today tT = some a)
    (hfm : get_prayer_time "Fajr" (today + 1) tTom = some fm)
    (ham : get_prayer_time "Asr" (today + 1) tTom = some am)
    (hd1 : dtDate (a + 30 + 10) = today)
    (hd2 : dtDate (am + 30 + 10) = today + 1) :
    ∃ L, schedule_tasks_pure now today tT tTom = some L
      ∧ ∀ t ∈ L, t.kind = TaskKind.quran →
          t.pages = some (send_quran_pages_pages (quran_task_date t)) := by
  refine ⟨_, schedule_tasks_pure_eq now today tT tTom f a fm am hf ha hfm ham, ?_⟩
  intro t ht hq
  simp only [List.mem_append] at ht
  rcases ht with (((h | h) | h) | h) | h
  · split at h
    · exact absurd h (List.not_mem_nil t)
    · simp only [List.mem_singleton] at h
      subst h
      simp at hq
  · split at h
    · exact absurd h (List.not_mem_nil t)
    · simp only [List.mem_cons, List.not_mem_nil, or_false] at h
      rcases h with rfl | rfl
      · simp at hq
      · simp only [quran_task_date, send_quran_pages_pages]
        rw [hd1]
  · split at h
    · simp only [List.mem_singleton] at h
      subst h
      simp at hq
    · exact absurd h (List.not_mem_nil t)
  · split at h
    · simp only [List.mem_singleton] at h
      subst h
      simp at hq
    · exact absurd h (List.not_mem_nil t)
  · split at h
    · simp only [List.mem_singleton] at h
      subst h
      simp only [quran_task_date, send_quran_pages_pages]
      rw [hd2]
    · exact absurd h (List.not_mem_nil t)

/-- C8 (witness): the fire-date theorem at the 12:00 planning instant. -/
theorem c8_pages_match_fire_date_witness :
    get_prayer_time "Fajr" exToday exTimesToday = some (mkDT exToday 4 30)
    ∧ get_prayer_time "Asr" exToday exTimesToday = some (mkDT exToday 16 30)
    ∧ get_prayer_time "Fajr" (exToday + 1) exTimesTomorrow
        = some (mkDT (exToday + 1) 4 31)
    ∧ get_prayer_time "Asr" (exToday + 1) exTimesTomorrow
        = some (mkDT (exToday + 1) 16 31)
    ∧ dtDate (mkDT exToday 16 30 + 30 + 10) = exToday
    ∧ dtDate (mkDT (exToday + 1) 16 31 + 30 + 10) = exToday + 1
    ∧ ∃ L, schedule_tasks_pure exNow2 exToday exTimesToday exTimesTomorrow = some L
        ∧ ∀ t ∈ L, t.kind = TaskKind.quran →
            t.pages = some (send_quran_pages_pages (quran_task_date t)) :=
  ⟨by decide, by decide, by decide, by decide, by decide, by decide,
   c8_pages_match_fire_date exNow2 exToday exTimesToday exTimesTomorrow
     (mkDT exToday 4 30) (mkDT exToday 16 30)
     (mkDT (exToday + 1) 4 31) (mkDT (exToday + 1) 16 31)
     (by decide) (by decide) (by decide) (by decide) (by decide) (by decide)⟩

/-- C9: for every pair of provider responses and every requested date,
the gateway returns a timings table that contains both `Fajr` and `Asr`
and is non-empty — it never returns a failure value.  Consequently the
planner guard `if not prayer_times_today:` (src/fazkerbot.py line 446) is
always false, so the branch calling the undefined name
`schedule_fallback_tasks` (line 449) is unreachable. -/
theorem c9_fetch_total (city coords : Option ApiData) (target : Int) :
    ((fetch_prayer_times_with_fallback city coords target).lookup "Fajr").isSome
    ∧ ((fetch_prayer_times_with_fallback city coords target).lookup "Asr").isSome
    ∧ fetch_prayer_times_with_fallback city coords target ≠ [] := by
  unfold fetch_prayer_times_with_fallback
  cases hc : try_city_api city target with
  | some t => exact try_city_api_sound city target t hc
  | none =>
    cases hk : try_coordinates_api coords target with
    | some t =>
      exact try_city_api_sound coords target t
        (by rw [← try_coordinates_eq_city]; exact hk)
    | none => exact ⟨by decide, by decide, by decide⟩

end Muthaker
